import Mathlib

/-!
Verification of the fp-result library (src/src/result.ts, src/src/result-err.ts).

The library exposes an abstract class `Result<T, E extends ResultErr>` with two
private concrete subclasses, `Ok<T>` (constructed with `(value, true, false)`)
and `Err<E>` (constructed with `(value, false, true)`), reachable only through
the static factories `Result.ok` and `Result.err`.  We embed the sealed
two-class hierarchy as an inductive type with exactly two constructors.  Each
constructor carries, besides its payload, a natural number `addr` modelling the
object identity (allocation address) of the instance; `addr` has no counterpart
among the source fields — it exists only so that "returns a new instance" vs.
"returns the same instance" is observable in the embedding.  Methods that
allocate (`Ok.map`, the factories) take the fresh address as an explicit
argument.

`null` results are modelled with `Option` (`none` = `null`); throwing is
modelled with `Except` (`Except.error e` = `throw e`); the TypeScript union
`T | E` held by the private `_value` field is modelled with `Sum`.
-/

namespace FpResult

/-- Embedding of `ResultErr` (src/src/result-err.ts): the abstract base class
extends `Error` (so it carries a `message` string) and adds an abstract
discriminant field `_tag : string`. -/
structure ResultErr where
  message : String
  tag : String

/-- Embedding of the sealed hierarchy `Result<T, E>` with its two private
concrete subclasses.  `Ok` stores one `T` with flags `_isOk = true`,
`_isErr = false`; `Err` stores one `E` with flags `_isOk = false`,
`_isErr = true`.  The flags are determined by the constructor, so they are not
stored separately; the getters below recompute them per variant exactly as the
constructors set them.  `addr` models object identity (see module comment). -/
inductive Result (T E : Type) where
  | Ok (addr : Nat) (value : T)
  | Err (addr : Nat) (value : E)

namespace Result

variable {T E U R : Type}

/-- Object identity of the instance (models reference equality in the host). -/
def addr : Result T E → Nat
  | .Ok a _ => a
  | .Err a _ => a

/-- `get isOk`: returns the `_isOk` flag, which the `Ok` constructor sets to
`true` and the `Err` constructor sets to `false`. -/
def isOk : Result T E → Bool
  | .Ok _ _ => true
  | .Err _ _ => false

/-- `get isErr`: returns the `_isErr` flag, which the `Ok` constructor sets to
`false` and the `Err` constructor sets to `true`. -/
def isErr : Result T E → Bool
  | .Ok _ _ => false
  | .Err _ _ => true

/-- `get value`: returns the raw `_value` field of type `T | E`
(modelled as `T ⊕ E`): the `T` payload on `Ok`, the `E` payload on `Err`. -/
def value : Result T E → T ⊕ E
  | .Ok _ v => Sum.inl v
  | .Err _ e => Sum.inr e

/-- `getOrDefault(defaultValue)`: `this.isOk ? this.value as T : defaultValue`.
`isOk` is true exactly on the `Ok` variant, where `this.value as T` is the
stored payload, so the conditional becomes a match on the variant. -/
def getOrDefault (r : Result T E) (d : T) : T :=
  match r with
  | .Ok _ v => v
  | .Err _ _ => d

/-- `getOrElse(onErr)`: `this.isOk ? this.value as T : onErr(this.value as E)`.
As for `getOrDefault`, the `isOk` test selects the variant. -/
def getOrElse (r : Result T E) (onErr : E → T) : T :=
  match r with
  | .Ok _ v => v
  | .Err _ e => onErr e

/-- Instrumented `getOrElse`: additionally records the list of arguments on
which `onErr` is invoked, read off the two branches of the source body
(`Ok`: `onErr` not called; `Err`: one call, on the stored error). -/
def getOrElseTraced (r : Result T E) (onErr : E → T) : T × List E :=
  match r with
  | .Ok _ v => (v, [])
  | .Err _ e => (onErr e, [e])

/-- The plain record returned by `toJSON()`:
`{ value: this._value, isOk: this.isOk, isErr: this.isErr }`. -/
structure ResultJSON (T E : Type) where
  value : T ⊕ E
  isOk : Bool
  isErr : Bool

/-- `toJSON()`: packs the raw `_value` field and the two variant flags into a
plain record. -/
def toJSON (r : Result T E) : ResultJSON T E :=
  ⟨r.value, r.isOk, r.isErr⟩

/-- `map(fn)`.  `Ok.map` executes `new Result.Ok(fn(this.value))`: it calls
`fn` on the payload and allocates a new `Ok` (at the fresh address).
`Err.map` executes `return this as unknown as Result<U, E>`: it returns the
very same instance — same address, same payload, no allocation. -/
def map (r : Result T E) (fresh : Nat) (fn : T → U) : Result U E :=
  match r with
  | .Ok _ v => .Ok fresh (fn v)
  | .Err a e => .Err a e

/-- Instrumented `map`: additionally records the list of arguments on which
`fn` is invoked (`Ok.map` calls it once, on the payload; `Err.map` never
calls it). -/
def mapTraced (r : Result T E) (fresh : Nat) (fn : T → U) :
    Result U E × List T :=
  match r with
  | .Ok _ v => (.Ok fresh (fn v), [v])
  | .Err a e => (.Err a e, [])

/-- `fold(ifOk, ifErr)`.  `Ok.fold` returns `ifOk(this.value)`;
`Err.fold` returns `ifErr(this.value)`. -/
def fold (r : Result T E) (ifOk : T → R) (ifErr : E → R) : R :=
  match r with
  | .Ok _ v => ifOk v
  | .Err _ e => ifErr e

/-- Instrumented `fold`: additionally records the arguments on which `ifOk`
(first list) and `ifErr` (second list) are invoked, read off the two source
bodies (each branch makes exactly one call, to the handler of its variant). -/
def foldTraced (r : Result T E) (ifOk : T → R) (ifErr : E → R) :
    R × (List T × List E) :=
  match r with
  | .Ok _ v => (ifOk v, ([v], []))
  | .Err _ e => (ifErr e, ([], [e]))

/-- `getOrNull()`: `Ok.getOrNull` returns `this._value`; `Err.getOrNull`
returns `null` (modelled as `none`). -/
def getOrNull : Result T E → Option T
  | .Ok _ v => some v
  | .Err _ _ => none

/-- `errOrNull()`: `Ok.errOrNull` returns `null`; `Err.errOrNull` returns
`this._value`. -/
def errOrNull : Result T E → Option E
  | .Ok _ _ => none
  | .Err _ e => some e

/-- `getOrThrow()`: `Ok.getOrThrow` returns `this._value`; `Err.getOrThrow`
executes `throw this._value`, raising the stored error itself.  Throwing is
modelled by `Except.error`. -/
def getOrThrow : Result T E → Except E T
  | .Ok _ v => Except.ok v
  | .Err _ e => Except.error e

/-- `toString()`: `Ok` renders as a template literal around the payload
(its host stringification is passed in as `showT`); `Err` renders around the
error's `message` field, which the bound `E extends ResultErr` guarantees. -/
def toStr (showT : T → String) : Result T ResultErr → String
  | .Ok _ v => "Ok(" ++ showT v ++ ")"
  | .Err _ e => "Err(" ++ e.message ++ ")"

/-- Static factory `Result.ok(value)`: `new this.Ok(value)` — allocates an
`Ok` at the fresh address.  Its TypeScript type `Result<T, never>` widens to
`Result<T, E>` for any `E`; the embedding is polymorphic in `E` accordingly. -/
def ok (fresh : Nat) (v : T) : Result T E := .Ok fresh v

/-- Static factory `Result.err(error)`: `new this.Err(error)` — allocates an
`Err` at the fresh address.  Its TypeScript type `Result<never, E>` widens to
`Result<T, E>` for any `T`. -/
def err (fresh : Nat) (e : E) : Result T E := .Err fresh e

end Result

/-- A concrete JavaScript-style value domain containing the `null` sentinel,
used to study `getOrNull` when the success type itself includes `null`. -/
inductive JSVal where
  | null
  | num (n : Int)
  | str (s : String)
deriving DecidableEq

/-- `getOrNull()` specialised at a success type `T` that already contains the
`null` sentinel (so the TypeScript return type `T | null` collapses to `T`):
`Ok.getOrNull` returns `this._value`, `Err.getOrNull` returns `null` — here
both land in the same type `JSVal`. -/
def Result.getOrNullJS {E : Type} : Result JSVal E → JSVal
  | .Ok _ v => v
  | .Err _ _ => JSVal.null

end FpResult

namespace FpResult

namespace Result

variable {T E U R : Type}

/-!
Lifts of the operations into the throwing semantics.  In the host language any
method may raise; we model a method as `Except E α`, where `Except.error e`
stands for `throw e`.  Tracing each source body: the only `throw` statement in
the repository is in `Err.getOrThrow` (already modelled by `getOrThrow`
above); every other body is straight-line code with no throw, so its lift
returns `Except.ok` of the value it computes.  `map` is lifted for a
non-raising `fn`, and `fold` for non-raising handlers, as a plain Lean
function `T → U` cannot itself raise.
-/

/-- Lift of the `isOk` getter: its body contains no throw. -/
def isOkT (r : Result T E) : Except E Bool := Except.ok r.isOk

/-- Lift of the `isErr` getter: its body contains no throw. -/
def isErrT (r : Result T E) : Except E Bool := Except.ok r.isErr

/-- Lift of the `value` getter: its body contains no throw. -/
def valueT (r : Result T E) : Except E (T ⊕ E) := Except.ok r.value

/-- Lift of `getOrDefault`: its body contains no throw. -/
def getOrDefaultT (r : Result T E) (d : T) : Except E T :=
  Except.ok (r.getOrDefault d)

/-- Lift of `getOrElse` with a non-raising `onErr`: its body contains no
throw. -/
def getOrElseT (r : Result T E) (onErr : E → T) : Except E T :=
  Except.ok (r.getOrElse onErr)

/-- Lift of `getOrNull`: neither variant's body contains a throw. -/
def getOrNullT (r : Result T E) : Except E (Option T) :=
  Except.ok r.getOrNull

/-- Lift of `errOrNull`: neither variant's body contains a throw. -/
def errOrNullT (r : Result T E) : Except E (Option E) :=
  Except.ok r.errOrNull

/-- Lift of `map` with a non-raising `fn`: neither variant's body contains a
throw. -/
def mapT (r : Result T E) (fresh : Nat) (fn : T → U) :
    Except E (Result U E) :=
  Except.ok (r.map fresh fn)

/-- Lift of `fold` with non-raising handlers: neither variant's body contains
a throw. -/
def foldT (r : Result T E) (ifOk : T → R) (ifErr : E → R) : Except E R :=
  Except.ok (r.fold ifOk ifErr)

/-- Lift of `toJSON`: its body contains no throw. -/
def toJSONT (r : Result T E) : Except E (ResultJSON T E) :=
  Except.ok r.toJSON

/-- Lift of `toString`: neither variant's body contains a throw. -/
def toStrT (showT : T → String) (r : Result T ResultErr) :
    Except ResultErr String :=
  Except.ok (toStr showT r)

/-- Lift of the factory `Result.ok`: its body contains no throw. -/
def okT (fresh : Nat) (v : T) : Except E (Result T E) :=
  Except.ok (ok fresh v)

/-- Lift of the factory `Result.err`: its body contains no throw. -/
def errT (fresh : Nat) (e : E) : Except E (Result T E) :=
  Except.ok (err fresh e)

end Result

/-- C1: for every error value `e`, `Result.err(e)` has `isOk = false`,
`isErr = true`, `value = e` (the error side of the raw `T | E` union),
`getOrNull() = null`, `errOrNull() = e`, and `getOrThrow()` raises exactly the
contained error `e` itself — the same value, not a wrapper or copy. -/
theorem C1_err_observers (T E : Type) (a : Nat) (e : E) :
    Result.isOk (Result.err a e : Result T E) = false ∧
    Result.isErr (Result.err a e : Result T E) = true ∧
    Result.value (Result.err a e : Result T E) = Sum.inr e ∧
    Result.getOrNull (Result.err a e : Result T E) = none ∧
    Result.errOrNull (Result.err a e : Result T E) = some e ∧
    Result.getOrThrow (Result.err a e : Result T E) = Except.error e :=
  ⟨rfl, rfl, rfl, rfl, rfl, rfl⟩

/-- C2: for every value `v`, `Result.ok(v)` has `isOk = true`,
`isErr = false`, `value = v` (the success side of the raw `T | E` union),
`getOrNull() = v`, `errOrNull() = null`, and `getOrThrow()` returns `v`
without raising. -/
theorem C2_ok_observers (T E : Type) (a : Nat) (v : T) :
    Result.isOk (Result.ok a v : Result T E) = true ∧
    Result.isErr (Result.ok a v : Result T E) = false ∧
    Result.value (Result.ok a v : Result T E) = Sum.inl v ∧
    Result.getOrNull (Result.ok a v : Result T E) = some v ∧
    Result.errOrNull (Result.ok a v : Result T E) = none ∧
    Result.getOrThrow (Result.ok a v : Result T E) = Except.ok v :=
  ⟨rfl, rfl, rfl, rfl, rfl, rfl⟩

/-- C3: `map(fn)` on an Ok returns `Ok(fn(value))` with `fn` invoked exactly
once (on the payload); on an Err the payload is passed through untouched —
`Result.err(e).map(f).errOrNull() = e` for any `f` — and `f` is never
invoked. -/
theorem C3_map_ok_once_err_untouched (T E U : Type) (a fresh : Nat) (v : T)
    (e : E) (fn : T → U) :
    Result.mapTraced (Result.ok a v : Result T E) fresh fn =
      (Result.Ok fresh (fn v), [v]) ∧
    Result.mapTraced (Result.err a e : Result T E) fresh fn =
      (Result.Err a e, []) ∧
    Result.errOrNull (Result.map (Result.err a e : Result T E) fresh fn) =
      some e :=
  ⟨rfl, rfl, rfl⟩

/-- C4: `fold(ifOk, ifErr)` invokes exactly one of its two handlers — never
both and never neither — the Ok handler on the Ok payload, the Err handler on
the Err payload, and returns that handler's result. -/
theorem C4_fold_exactly_one (T E R : Type) (r : Result T E) (a : Nat) (v : T)
    (e : E) (f : T → R) (g : E → R) :
    (Result.foldTraced r f g).2.1.length +
      (Result.foldTraced r f g).2.2.length = 1 ∧
    Result.foldTraced (Result.Ok a v) f g = (f v, ([v], [])) ∧
    Result.foldTraced (Result.Err a e) f g = (g e, ([], [e])) := by
  refine ⟨?_, rfl, rfl⟩
  cases r <;> rfl

/-- C5 counterexample: `map` on the Err variant does not return a new
instance.  `Err.map` executes `return this`, so at the concrete input
`r = Result.err({ message := "failed", _tag := "MyError" })` the call
`r.map(n => n + 1)` is the very same instance as `r` (same address, same
payload), not a Result distinct from `r`. -/
theorem C5_counterexample :
    Result.map
      (Result.Err 0 (ResultErr.mk "failed" "MyError") : Result Nat ResultErr)
      1 (fun n => n + 1) =
    (Result.Err 0 (ResultErr.mk "failed" "MyError") : Result Nat ResultErr) :=
  rfl

/-- C5 (amended): no operation mutates an existing Result instance, and
`map` on an Ok returns a newly constructed Result carrying the fresh
allocation address — hence distinct from the receiver whenever the fresh
address differs from the receiver's — while `map` on an Err returns the very
same instance unchanged rather than a new one. -/
theorem C5_map_allocation (T E U : Type) (a fresh : Nat) (v : T) (e : E)
    (fn : T → U) :
    Result.map (Result.Ok a v : Result T E) fresh fn = Result.Ok fresh (fn v) ∧
    Result.addr (Result.map (Result.Ok a v : Result T E) fresh fn) = fresh ∧
    (fresh ≠ a →
      Result.addr (Result.map (Result.Ok a v : Result T E) fresh fn) ≠
        Result.addr (Result.Ok a v : Result T E)) ∧
    Result.map (Result.Err a e : Result T E) fresh fn = Result.Err a e := by
  refine ⟨rfl, rfl, ?_, rfl⟩
  intro h
  simpa [Result.map, Result.addr] using h

/-- C5 witness: the amended theorem instantiated at address 0, fresh address
1, payload 5 and a concrete error. -/
theorem C5_map_allocation_witness :
    Result.addr (Result.map (Result.Ok 0 (5 : Nat) : Result Nat ResultErr) 1
        (fun n => n + 1)) ≠
      Result.addr (Result.Ok 0 (5 : Nat) : Result Nat ResultErr) :=
  (C5_map_allocation Nat ResultErr Nat 0 1 5
    (ResultErr.mk "failed" "MyError") (fun n => n + 1)).2.2.1 (by decide)

/-- C6: `getOrDefault(d)` returns the contained value on Ok and `d` on Err;
`getOrElse(onErr)` returns the contained value on Ok and `onErr(error)` on
Err, with `onErr` invoked at most once, only on Err, never on the Ok path. -/
theorem C6_default_extraction (T E : Type) (a : Nat) (v : T) (e : E) (d : T)
    (onErr : E → T) :
    Result.getOrDefault (Result.Ok a v : Result T E) d = v ∧
    Result.getOrDefault (Result.Err a e : Result T E) d = d ∧
    Result.getOrElseTraced (Result.Ok a v : Result T E) onErr = (v, []) ∧
    Result.getOrElseTraced (Result.Err a e : Result T E) onErr =
      (onErr e, [e]) :=
  ⟨rfl, rfl, rfl, rfl⟩

/-- C7: calling `getOrThrow` on an Err is the only way the system raises:
every other operation — `isOk`, `isErr`, `value`, `getOrDefault`, `getOrElse`,
`getOrNull`, `errOrNull`, `map` with a non-raising `fn`, `fold` with
non-raising handlers, `toJSON`, `toString`, and the factories `ok` and `err` —
is total and returns without raising on every Result, and `getOrThrow` itself
is total on Ok, raising the stored error exactly on Err. -/
theorem C7_only_getOrThrow_raises (T E U R : Type) (r : Result T E)
    (rs : Result T ResultErr) (a : Nat) (v : T) (e : E) (d : T)
    (onErr : E → T) (fn : T → U) (f : T → R) (g : E → R)
    (showT : T → String) :
    (∃ b, Result.isOkT r = Except.ok b) ∧
    (∃ b, Result.isErrT r = Except.ok b) ∧
    (∃ x, Result.valueT r = Except.ok x) ∧
    (∃ x, Result.getOrDefaultT r d = Except.ok x) ∧
    (∃ x, Result.getOrElseT r onErr = Except.ok x) ∧
    (∃ x, Result.getOrNullT r = Except.ok x) ∧
    (∃ x, Result.errOrNullT r = Except.ok x) ∧
    (∃ x, Result.mapT r a fn = Except.ok x) ∧
    (∃ x, Result.foldT r f g = Except.ok x) ∧
    (∃ x, Result.toJSONT r = Except.ok x) ∧
    (∃ x, Result.toStrT showT rs = Except.ok x) ∧
    (∃ x, (Result.okT a v : Except E (Result T E)) = Except.ok x) ∧
    (∃ x, (Result.errT a e : Except E (Result T E)) = Except.ok x) ∧
    Result.getOrThrow (Result.Ok a v : Result T E) = Except.ok v ∧
    Result.getOrThrow (Result.Err a e : Result T E) = Except.error e :=
  ⟨⟨_, rfl⟩, ⟨_, rfl⟩, ⟨_, rfl⟩, ⟨_, rfl⟩, ⟨_, rfl⟩, ⟨_, rfl⟩, ⟨_, rfl⟩,
    ⟨_, rfl⟩, ⟨_, rfl⟩, ⟨_, rfl⟩, ⟨_, rfl⟩, ⟨_, rfl⟩, ⟨_, rfl⟩, rfl, rfl⟩

/-- C8: `fold` is the universal eliminator — every other read-only accessor is
expressible through it: `getOrNull = fold (v => v) (_ => null)`,
`errOrNull = fold (_ => null) (e => e)`, `getOrDefault d = fold (v => v)
(_ => d)`, `getOrElse f = fold (v => v) f`, `isOk = fold (_ => true)
(_ => false)`, and `isErr = fold (_ => false) (_ => true)`. -/
theorem C8_fold_universal (T E : Type) (r : Result T E) (d : T)
    (f : E → T) :
    Result.getOrNull r = Result.fold r (fun v => some v) (fun _ => none) ∧
    Result.errOrNull r = Result.fold r (fun _ => none) (fun e => some e) ∧
    Result.getOrDefault r d = Result.fold r (fun v => v) (fun _ => d) ∧
    Result.getOrElse r f = Result.fold r (fun v => v) f ∧
    Result.isOk r = Result.fold r (fun _ => true) (fun _ => false) ∧
    Result.isErr r = Result.fold r (fun _ => false) (fun _ => true) := by
  cases r <;> exact ⟨rfl, rfl, rfl, rfl, rfl, rfl⟩

/-- C9: `toJSON()` returns the plain record whose `value` field is the raw
contained payload (the `T` side on Ok, the `E` side on Err) and whose
`isOk`/`isErr` fields mirror the variant flags; in particular
`Result.ok(42).toJSON()` is `(value := 42, isOk := true, isErr := false)` and
`Result.err(e).toJSON()` is `(value := e, isOk := false, isErr := true)`. -/
theorem C9_toJSON_shape (T E : Type) (r : Result T E) (a : Nat) (e : E) :
    Result.toJSON r = ⟨Result.value r, Result.isOk r, Result.isErr r⟩ ∧
    Result.toJSON (Result.ok a (42 : Nat) : Result Nat E) =
      ⟨Sum.inl 42, true, false⟩ ∧
    Result.toJSON (Result.err a e : Result T E) = ⟨Sum.inr e, false, true⟩ :=
  ⟨rfl, rfl, rfl⟩

/-- C10: when the success type contains the `null` sentinel, `getOrNull` is
ambiguous: `Result.ok(null).getOrNull()` is `null` — exactly what every Err
returns from `getOrNull` — even though `isOk` is `true`, so `getOrNull` alone
cannot distinguish `Ok(null)` from an Err. -/
theorem C10_getOrNull_ambiguous (E : Type) (a b : Nat) (e : E) :
    Result.isOk (Result.ok a JSVal.null : Result JSVal E) = true ∧
    Result.getOrNullJS (Result.ok a JSVal.null : Result JSVal E) =
      JSVal.null ∧
    Result.getOrNullJS (Result.err b e : Result JSVal E) = JSVal.null ∧
    Result.getOrNullJS (Result.ok a JSVal.null : Result JSVal E) =
      Result.getOrNullJS (Result.err b e : Result JSVal E) :=
  ⟨rfl, rfl, rfl, rfl⟩

end FpResult
